import Mathlib

/-!
Shallow embedding of the MaxWeather scraper core
(`src/weather-report-scraper.py.old`): the discovery / fetch-with-retry /
collect / aggregate pipeline.  Network and HTML parsing are external
capabilities (spec §6), so each is modelled as an oracle value handed to the
embedded function: one `Transport` result per attempt for the fetcher, one
`Transport` result carrying the parsed div list for discovery.  Everything
else (retry loop, truthiness filter, dict building, sorting, serialization)
is translated directly from the source.
-/

namespace MaxWeather

/-- Result of one transport-level HTTP attempt (`requests.get` +
`raise_for_status`): either a request exception (connection failure, timeout,
non-success status), carrying `str(e)`, or a successfully retrieved body
already run through the parsing capability `β`. -/
inductive Transport (β : Type) where
  | err (cause : String)
  | ok (body : β)
  deriving DecidableEq

/-- The three return sites of `get_weather_report` (lines 22, 25, 32):
`success` is line 22 (`return pre_tag.text.strip()`), `missing` is line 25
(`return None` after the "No data found" warning), `failed cause` is line 32
(`return None` after the "Failed to fetch ... : {cause}" error). -/
inductive FetchOutcome where
  | success (text : String)
  | missing
  | failed (cause : String)
  deriving DecidableEq

/-- Observable side effects of one run of `get_weather_report`:
an HTTP attempt (`requests.get`, line 17) or a blocking delay of the given
duration (`time.sleep(2)`, line 29). -/
inductive FetchEvent where
  | attempt
  | sleep (duration : Nat)
  deriving DecidableEq

/-- One complete run of `get_weather_report` for a single version: its
return-site outcome plus the ordered trace of attempts and delays. -/
structure FetchRun where
  outcome : FetchOutcome
  trace : List FetchEvent
  deriving DecidableEq

/-- Drop leading whitespace characters of a character list. -/
def dropLeadingWs : List Char → List Char
  | [] => []
  | c :: cs => if c.isWhitespace then dropLeadingWs cs else c :: cs

/-- Python `str.strip()`: remove leading and trailing whitespace.
(The whitespace set is `Char.isWhitespace`: space, tab, CR, LF.) -/
def pyStrip (s : String) : String :=
  ⟨(dropLeadingWs (dropLeadingWs s.data.reverse).reverse)⟩

/-- Body of a fetch attempt after parsing (spec §6 narrow interface): the
text of the `pre.glossaryProduct` tag when `soup.find` locates one
(line 20), `none` when the tag is absent. -/
abbrev FetchBody := Option String

/-- The `for attempt in range(tries)` loop of `get_weather_report`
(lines 15-32).  `remaining + 1` attempts are still allowed, the current one
included; `attempt` is the current 0-based loop index (used to index the
attempt oracle).  On transport success with the tag present it returns the
stripped text (line 22); with the tag absent it returns at once with
`missing` (lines 23-25); on a transport error it either sleeps 2 and retries
(lines 27-29, when `attempt < tries - 1`, i.e. `remaining ≠ 0`) or gives up
with `failed` carrying the last error (lines 30-32).  The `remaining = 0`
base case models Python falling off the loop, unreachable for `tries > 0`. -/
def fetchLoop (oracle : Nat → Transport FetchBody) (attempt : Nat) :
    Nat → FetchRun
  | 0 => ⟨.failed "", []⟩
  | remaining + 1 =>
    match oracle attempt with
    | .ok (some t) => ⟨.success (pyStrip t), [.attempt]⟩
    | .ok none => ⟨.missing, [.attempt]⟩
    | .err e =>
      if remaining = 0 then ⟨.failed e, [.attempt]⟩
      else
        let r := fetchLoop oracle (attempt + 1) remaining
        ⟨r.outcome, .attempt :: .sleep 2 :: r.trace⟩

/-- `get_weather_report(version)` (lines 12-32) with `tries = 3` (line 14),
for a fixed version whose per-attempt transport results are given by
`oracle`. -/
def get_weather_report (oracle : Nat → Transport FetchBody) : FetchRun :=
  fetchLoop oracle 0 3

/-- Spec §4.2, outcome of one transport success: "parses the body for a
specific structural content block; if absent, immediately returns `Missing`
...; if present, extracts and trims the textual payload and returns
`Success(text)`". -/
def payloadOutcome : FetchBody → FetchOutcome
  | some t => .success (pyStrip t)
  | none => .missing

/-- Modelled from the spec (§4.2, §3 FetchOutcome), for comparison with the
code's `get_weather_report`: up to 3 attempts; the first transport success
decides the outcome through the payload block; if all 3 attempts fail at the
transport level, `Failed(cause)` carries the last observed error. -/
def specFetchOutcome (oracle : Nat → Transport FetchBody) : FetchOutcome :=
  match oracle 0 with
  | .ok p => payloadOutcome p
  | .err _ =>
    match oracle 1 with
    | .ok p => payloadOutcome p
    | .err _ =>
      match oracle 2 with
      | .ok p => payloadOutcome p
      | .err e => .failed e

/-- Does the character list `n` occur as a leading segment of `h`? -/
def leadsList : List Char → List Char → Bool
  | [], _ => true
  | _ :: _, [] => false
  | a :: n, b :: h => a == b && leadsList n h

/-- Does the character list `n` occur as a contiguous segment of `h`? -/
def segOfList (n : List Char) : List Char → Bool
  | [] => n.isEmpty
  | b :: h => leadsList n (b :: h) || segOfList n h

/-- Python's substring test `needle in hay` for strings. -/
def strContainsSub (hay needle : String) : Bool :=
  segOfList needle.data hay.data

/-- Value of a non-empty run of decimal digits; `none` otherwise. -/
def digitsToNat (ds : List Char) : Option Nat :=
  if ds.isEmpty then none
  else if ds.all Char.isDigit then
    some (ds.foldl (fun n c => n * 10 + (c.toNat - '0'.toNat)) 0)
  else none

/-- Python `int(s)` on the strings this program can meet: surrounding
whitespace is stripped, an optional single sign is allowed, and the rest
must be a non-empty run of decimal digits, else `ValueError` (`none`).
(Python's digit-group underscores and non-ASCII digits are not modelled.) -/
def pyInt (s : String) : Option Int :=
  match (pyStrip s).data with
  | '-' :: ds => (digitsToNat ds).map (fun n => -(n : Int))
  | '+' :: ds => (digitsToNat ds).map (fun n => (n : Int))
  | ds => (digitsToNat ds).map (fun n => (n : Int))

/-- One `div` element of the discovery page as seen through the parsing
capability (spec §6): its visible text and the texts of its `a` elements in
document order (`div.text`, `div.find_all('a')`). -/
structure Div where
  text : String
  links : List String
  deriving DecidableEq

/-- The `for div in divs` scan of `get_total_versions` (lines 45-52): the
first div whose text contains `'Versions:'` and whose link list is non-empty
yields the text of its last link (`links[-1].text`); a matching div with no
links is passed over (the `if links:` guard has no else), and exhausting the
divs yields `none` (falls through to lines 54-55). -/
def lastVersionLink : List Div → Option String
  | [] => none
  | d :: ds =>
    if strContainsSub d.text "Versions:" then
      match d.links.getLast? with
      | some s => some s
      | none => lastVersionLink ds
    else lastVersionLink ds

/-- `get_total_versions()` (lines 34-61) over the transport result of its
single retrieval: a `RequestException` returns 0 (lines 56-58); a body in
which no versions div is found returns 0 (lines 54-55); `int(...)` raising
`ValueError` returns 0 (lines 59-61); otherwise the parsed value of the last
link's text is returned as-is (lines 51-52). -/
def get_total_versions (t : Transport (List Div)) : Int :=
  match t with
  | .err _ => 0
  | .ok divs =>
    match lastVersionLink divs with
    | none => 0
    | some s =>
      match pyInt s with
      | none => 0
      | some n => n

/-- `get_optimal_worker_count()` (lines 63-73): `os.cpu_count()` may be
undetermined (`None`). -/
def get_optimal_worker_count (cpu_count : Option Nat) : Nat :=
  match cpu_count with
  | none => 5
  | some c => min (c * 5) 32

/-- The value `get_weather_report` hands back to `future.result()`
(line 91): the stripped text at the `success` return site (line 22), `None`
at the other two (lines 25, 32). -/
def retValue : FetchOutcome → Option String
  | .success t => some t
  | .missing => none
  | .failed _ => none

/-- One future per submitted version (line 86, `future_to_version`), each
resolved to the outcome of its `get_weather_report` run: the FetchResult set
of spec §3, pairing every attempted version with its single outcome. -/
def fetchResultSet (fetch : Nat → FetchRun) (versions : List Nat) :
    List (Nat × FetchOutcome) :=
  versions.map (fun v => (v, (fetch v).outcome))

/-- Body of one iteration of the collection loop (lines 91-93):
`data = future.result()`, then `if data: results[version] = data` — only
truthy data, neither `None` nor the empty string, produces an entry. -/
def keptPair (fetch : Nat → FetchRun) (v : Nat) : Option (Nat × String) :=
  match retValue (fetch v).outcome with
  | some data => if data = "" then none else some (v, data)
  | none => none

/-- The collection loop of `fetch_reports` (lines 88-96): futures are
consumed in completion order (`order`, a permutation of the submitted
versions).  Each version is submitted once, so each kept insertion appends a
fresh key; the resulting association list is the `results` dict in insertion
order. -/
def fetch_reports (fetch : Nat → FetchRun) (order : List Nat) :
    List (Nat × String) :=
  order.filterMap (keptPair fetch)

/-- Truthiness (line 92) of a version's fetch return value: kept iff the
fetch returned a non-empty string. -/
def keptB (fetch : Nat → FetchRun) (v : Nat) : Bool :=
  match retValue (fetch v).outcome with
  | some data => !(data == "")
  | none => false

/-- Text stored for a kept version: the string returned by its fetch
(totalized with `""`, never used for versions that are not kept). -/
def keptVal (fetch : Nat → FetchRun) (v : Nat) : String :=
  (retValue (fetch v).outcome).getD ""

/-- Trace of `k` consecutive transport-failed attempts, each followed by the
fixed 2-unit retry delay. -/
def failedAttemptsTrace : Nat → List FetchEvent
  | 0 => []
  | k + 1 => FetchEvent.attempt :: FetchEvent.sleep 2 :: failedAttemptsTrace k

/-- The delimited block of line 111:
`f"<version_{v}>\n{all_reports[v]}\n</version_{v}>"`. -/
def block (v : Nat) (text : String) : String :=
  "<version_" ++ toString v ++ ">\n" ++ text ++ "\n</version_" ++
    toString v ++ ">"

/-- Aggregation in `main` (lines 110-115): keys of the results dict sorted
ascending (`sorted(all_reports.keys())`), one block per surviving key
(line 111), joined with a blank line (`"\n\n".join`, line 115).  The lookup
`all_reports[v]` never misses since `v` ranges over the dict's own keys;
the association-list lookup is totalized with `""`. -/
def aggregate (all_reports : List (Nat × String)) : String :=
  String.intercalate "\n\n"
    ((List.insertionSort (· ≤ ·) (all_reports.map Prod.fst)).map
      (fun v => block v ((all_reports.lookup v).getD "")))

/-- The versions `main` submits (lines 101-108): none at all when discovery
yields 0 (early return, lines 102-104), else `range(1, total_versions + 1)`
(line 108; negative totals, which Python's `range` also empties, go through
`Int.toNat`). -/
def mainVersions (disc : Transport (List Div)) : List Nat :=
  if get_total_versions disc = 0 then []
  else List.range' 1 (get_total_versions disc).toNat

/-- `main()` (lines 98-122) up to the artifact string handed to the sinks:
`none` when discovery yields 0 (early return before any dispatch), else the
aggregated artifact of the results collected in completion order `order`.
The file and clipboard writes themselves are out of scope (spec §1). -/
def pyMain (disc : Transport (List Div))
    (fetch : Nat → FetchRun) (order : List Nat) : Option String :=
  if get_total_versions disc = 0 then none
  else some (aggregate (fetch_reports fetch order))

example :
    get_weather_report (fun _ => .ok (some "  hi ")) =
      ⟨.success "hi", [.attempt]⟩ := by decide

example :
    get_weather_report (fun _ => .err "boom") =
      ⟨.failed "boom",
        [.attempt, .sleep 2, .attempt, .sleep 2, .attempt]⟩ := by decide

example :
    get_weather_report
        (fun a => if a = 0 then .err "t0" else .ok none) =
      ⟨.missing, [.attempt, .sleep 2, .attempt]⟩ := by decide

example : get_total_versions (.ok [⟨"Versions:", ["-1"]⟩]) = -1 := by decide

example :
    get_total_versions (.ok [⟨"v", ["7"]⟩, ⟨"Versions: x", ["1", "53"]⟩]) =
      53 := by decide

example : get_total_versions (.err "conn") = 0 := by decide

example : get_total_versions (.ok [⟨"nothing", ["9"]⟩]) = 0 := by decide

example : pyInt " -12 " = some (-12) := by decide

example : pyInt "12a" = none := by decide

example :
    aggregate [(3, "gamma"), (1, "alpha")] =
      "<version_1>\nalpha\n</version_1>\n\n<version_3>\ngamma\n</version_3>" := by
  decide

example :
    fetch_reports
        (fun v => if v = 2 then ⟨.missing, [.attempt]⟩
          else ⟨.success ("t" ++ toString v), [.attempt]⟩)
        [3, 1, 2] =
      [(3, "t3"), (1, "t1")] := by decide

/-- C3: the fetch of a single Index yields a tagged outcome over
`{Success(text), Missing, Failed(cause)}` — the three distinct return sites
of `get_weather_report` — and it coincides with the spec-side outcome
(`specFetchOutcome`): the first transport success decides between `Success`
(trimmed payload) and `Missing`, and when every attempt fails at the
transport level, the `Failed` outcome carries the last observed transport
error as its cause. -/
theorem fetch_outcome_refines_spec (oracle : Nat → Transport FetchBody) :
    (get_weather_report oracle).outcome = specFetchOutcome oracle := by
  cases h0 : oracle 0 with
  | ok p =>
    cases p <;>
      simp [get_weather_report, fetchLoop, specFetchOutcome, h0, payloadOutcome]
  | err e0 =>
    cases h1 : oracle 1 with
    | ok p =>
      cases p <;>
        simp [get_weather_report, fetchLoop, specFetchOutcome, h0, h1,
          payloadOutcome]
    | err e1 =>
      cases h2 : oracle 2 with
      | ok p =>
        cases p <;>
          simp [get_weather_report, fetchLoop, specFetchOutcome, h0, h1, h2,
            payloadOutcome]
      | err e2 =>
        simp [get_weather_report, fetchLoop, specFetchOutcome, h0, h1, h2]

/-- C4: when every transport attempt for an index fails, the fetch performs
exactly 3 attempts with exactly 2 inter-attempt delays of 2 time units — the
trace is attempt, sleep 2, attempt, sleep 2, attempt, so no delay follows
the final attempt — and returns `Failed` carrying the last attempt's
error. -/
theorem retry_exhaustion_trace (oracle : Nat → Transport FetchBody)
    (h : ∀ i, i < 3 → ∃ e, oracle i = Transport.err e) :
    ∃ e, oracle 2 = Transport.err e ∧
      get_weather_report oracle =
        ⟨.failed e,
          [.attempt, .sleep 2, .attempt, .sleep 2, .attempt]⟩ := by
  obtain ⟨e0, h0⟩ := h 0 (by omega)
  obtain ⟨e1, h1⟩ := h 1 (by omega)
  obtain ⟨e2, h2⟩ := h 2 (by omega)
  exact ⟨e2, h2, by simp [get_weather_report, fetchLoop, h0, h1, h2]⟩

theorem retry_exhaustion_trace_witness :
    ∃ e, (fun _ : Nat => (Transport.err "boom" : Transport FetchBody)) 2 =
        Transport.err e ∧
      get_weather_report
          (fun _ : Nat => (Transport.err "boom" : Transport FetchBody)) =
        ⟨.failed e,
          [.attempt, .sleep 2, .attempt, .sleep 2, .attempt]⟩ :=
  retry_exhaustion_trace (fun _ => Transport.err "boom")
    (fun _ _ => ⟨"boom", rfl⟩)

/-- C5: if the attempt with 0-based position `k` succeeds at the transport
level but the content block is absent, the fetch returns `Missing` at once:
the trace holds the `k` earlier failed attempts with their delays, then the
final attempt and nothing after it — absence consumes no retry budget and
incurs no retry delay. -/
theorem missing_stops_retries (oracle : Nat → Transport FetchBody) (k : Nat)
    (hk : k < 3) (hpre : ∀ i, i < k → ∃ e, oracle i = Transport.err e)
    (hok : oracle k = Transport.ok none) :
    get_weather_report oracle =
      ⟨.missing, failedAttemptsTrace k ++ [.attempt]⟩ := by
  interval_cases k
  · simp [get_weather_report, fetchLoop, hok, failedAttemptsTrace]
  · obtain ⟨e0, h0⟩ := hpre 0 (by omega)
    simp [get_weather_report, fetchLoop, h0, hok, failedAttemptsTrace]
  · obtain ⟨e0, h0⟩ := hpre 0 (by omega)
    obtain ⟨e1, h1⟩ := hpre 1 (by omega)
    simp [get_weather_report, fetchLoop, h0, h1, hok, failedAttemptsTrace]

theorem missing_stops_retries_witness :
    get_weather_report
        (fun a => if a = 0 then Transport.err "t0" else Transport.ok none) =
      ⟨.missing, failedAttemptsTrace 1 ++ [.attempt]⟩ :=
  missing_stops_retries
    (fun a => if a = 0 then Transport.err "t0" else Transport.ok none) 1
    (by omega) (fun i hi => ⟨"t0", by interval_cases i; rfl⟩) rfl

/-- C6 counterexample: a discovery page whose versions div ends in a link
with text `"-1"` makes `get_total_versions` return the negative number `-1`
(Python's `int` parses a leading sign without raising `ValueError`), so
discovery does not always return a non-negative integer, and an extracted
value that is not a valid non-negative integer is not always mapped to 0. -/
theorem discover_negative_counterexample :
    get_total_versions (Transport.ok [Div.mk "Versions:" ["-1"]]) = -1 ∧
      ¬ 0 ≤ get_total_versions (Transport.ok [Div.mk "Versions:" ["-1"]]) := by
  decide

/-- C6 amended: `discover()` returns an integer; it returns 0 whenever the
transport call fails, the version-links marker is absent, or the extracted
text is not a valid integer (`ValueError`); when the text parses, its value
is returned as-is — including negative values, whose non-negativity the code
does not enforce.  It performs no retry: the result is a function of the
single transport result. -/
theorem discover_amended :
    (∀ e, get_total_versions (Transport.err e) = 0) ∧
    (∀ divs, lastVersionLink divs = none →
      get_total_versions (Transport.ok divs) = 0) ∧
    (∀ divs s, lastVersionLink divs = some s →
      get_total_versions (Transport.ok divs) = (pyInt s).getD 0) := by
  refine ⟨fun e => rfl, fun divs h => by simp [get_total_versions, h],
    fun divs s h => ?_⟩
  simp only [get_total_versions, h]
  cases pyInt s <;> simp

theorem discover_amended_witness :
    get_total_versions (Transport.err "conn") = 0 ∧
    get_total_versions (Transport.ok []) = 0 ∧
    get_total_versions (Transport.ok [Div.mk "Versions:" ["7"]]) =
      (pyInt "7").getD 0 :=
  ⟨discover_amended.1 "conn", discover_amended.2.1 [] rfl,
    discover_amended.2.2 [Div.mk "Versions:" ["7"]] "7" (by decide)⟩

/-- C8: the worker count is the available parallelism times 5 capped at 32
when parallelism can be determined, and the fixed default 5 when it
cannot. -/
theorem worker_count_spec :
    (∀ c, get_optimal_worker_count (some c) =
      if c * 5 ≤ 32 then c * 5 else 32) ∧
    get_optimal_worker_count none = 5 :=
  ⟨fun c => by simp [get_optimal_worker_count, min_def], rfl⟩

/-- C9 counterexample: when discovery yields 0, `main` returns at line 104
before any dispatch or aggregation — the run produces no artifact at all
(`none`), not an artifact equal to the empty string. -/
theorem empty_discovery_counterexample :
    get_total_versions (Transport.err "conn") = 0 ∧
    mainVersions (Transport.err "conn") = [] ∧
    pyMain (Transport.err "conn") (fun _ => ⟨.missing, [.attempt]⟩) [] =
      none ∧
    pyMain (Transport.err "conn") (fun _ => ⟨.missing, [.attempt]⟩) [] ≠
      some "" := by
  decide

/-- C9 amended: if discovery yields N = 0, no fetch operation is dispatched
and the run exits before aggregation, producing no artifact (rather than an
empty-string artifact). -/
theorem empty_discovery_amended (disc : Transport (List Div))
    (fetch : Nat → FetchRun) (order : List Nat)
    (h : get_total_versions disc = 0) :
    mainVersions disc = [] ∧ pyMain disc fetch order = none := by
  simp [mainVersions, pyMain, h]

theorem empty_discovery_witness :
    get_total_versions (Transport.ok []) = 0 ∧
    mainVersions (Transport.ok []) = [] ∧
    pyMain (Transport.ok []) (fun _ => ⟨.missing, [.attempt]⟩) [] = none :=
  ⟨by decide,
    (empty_discovery_amended (Transport.ok [])
      (fun _ => ⟨.missing, [.attempt]⟩) [] (by decide)).1,
    (empty_discovery_amended (Transport.ok [])
      (fun _ => ⟨.missing, [.attempt]⟩) [] (by decide)).2⟩

theorem keptPair_eq (f : Nat → FetchRun) (v : Nat) :
    keptPair f v = if keptB f v then some (v, keptVal f v) else none := by
  unfold keptPair keptB keptVal
  cases retValue (f v).outcome with
  | none => rfl
  | some data => by_cases hd : data = "" <;> simp [hd]

theorem keys_fetch_reports (f : Nat → FetchRun) (order : List Nat) :
    (fetch_reports f order).map Prod.fst =
      order.filter (fun v => keptB f v) := by
  induction order with
  | nil => rfl
  | cons v rest ih =>
    simp only [fetch_reports, List.filterMap_cons] at *
    rw [keptPair_eq]
    by_cases hb : keptB f v <;> simp [hb, List.filter_cons, ih]

theorem lookup_fetch_reports (f : Nat → FetchRun) (v : Nat)
    (order : List Nat) :
    (fetch_reports f order).lookup v =
      if v ∈ order ∧ keptB f v then some (keptVal f v) else none := by
  induction order with
  | nil => simp [fetch_reports]
  | cons w rest ih =>
    simp only [fetch_reports, List.filterMap_cons] at *
    rw [keptPair_eq]
    cases hb : keptB f w with
    | true =>
      by_cases hvw : v = w
      · subst hvw
        simp [List.lookup_cons, hb]
      · have hne : (v == w) = false := by simp [hvw]
        simp [List.lookup_cons, hne, ih, List.mem_cons, hvw]
    | false =>
      by_cases hvw : v = w
      · subst hvw
        simp [ih, hb]
      · simp [ih, List.mem_cons, hvw]

theorem sorted_keys_canonical (f : Nat → FetchRun) (N : Nat)
    (order : List Nat) (h : order.Perm (List.range' 1 N)) :
    List.insertionSort (· ≤ ·) ((fetch_reports f order).map Prod.fst) =
      (List.range' 1 N).filter (fun v => keptB f v) := by
  have hperm :
      (List.insertionSort (· ≤ ·)
          ((fetch_reports f order).map Prod.fst)).Perm
        ((List.range' 1 N).filter (fun v => keptB f v)) :=
    (List.perm_insertionSort _ _).trans
      (by rw [keys_fetch_reports]; exact h.filter _)
  have hs1 :
      List.Sorted (· ≤ ·)
        (List.insertionSort (· ≤ ·)
          ((fetch_reports f order).map Prod.fst)) :=
    List.sorted_insertionSort _ _
  have hs2 :
      List.Sorted (· ≤ ·)
        ((List.range' 1 N).filter (fun v => keptB f v)) := by
    exact ((List.pairwise_lt_range' 1 N).filter _).imp Nat.le_of_lt
  exact List.eq_of_perm_of_sorted hperm hs1 hs2

/-- C1 counterexample: with N = 1 and a fetch whose transport succeeds and
finds a content block of pure whitespace, index 1's outcome is
`Success("")`, yet the aggregated artifact holds no block for it (it is the
empty string, with no opening marker embedding the index) — the artifact
does not contain exactly one block per `Success` index. -/
theorem aggregate_empty_success_counterexample :
    (get_weather_report (fun _ => Transport.ok (some "  "))).outcome =
      FetchOutcome.success "" ∧
    fetch_reports
        (fun _ => get_weather_report (fun _ => Transport.ok (some "  ")))
        [1] = [] ∧
    aggregate
        (fetch_reports
          (fun _ => get_weather_report (fun _ => Transport.ok (some "  ")))
          [1]) = "" ∧
    strContainsSub
        (aggregate
          (fetch_reports
            (fun _ =>
              get_weather_report (fun _ => Transport.ok (some "  ")))
            [1]))
        "<version_1>" = false := by
  decide

/-- C1 amended: for every fetch-result assignment and every completion
order (any permutation of `[1, N]`) the aggregated artifact consists of
exactly one block per index whose outcome is `Success` with a NON-EMPTY
trimmed payload — indices with `Success("")` are dropped like `Missing` and
`Failed` ones — each block opening and closing with markers embedding the
index and containing the trimmed payload returned by the fetch, blocks in
strictly ascending index order joined by a blank-line separator. -/
theorem aggregate_success_blocks (f : Nat → FetchRun) (N : Nat)
    (order : List Nat) (h : order.Perm (List.range' 1 N)) :
    aggregate (fetch_reports f order) =
      String.intercalate "\n\n"
        (((List.range' 1 N).filter (fun v => keptB f v)).map
          (fun v => block v (keptVal f v))) := by
  unfold aggregate
  rw [sorted_keys_canonical f N order h]
  congr 1
  apply List.map_congr_left
  intro v hv
  have hmem := List.mem_filter.mp hv
  have hvo : v ∈ order := h.mem_iff.mpr hmem.1
  rw [lookup_fetch_reports]
  simp [hvo, hmem.2]

theorem aggregate_success_blocks_witness :
    [2, 1].Perm (List.range' 1 2) ∧
    aggregate
        (fetch_reports
          (fun v => if v = 1 then ⟨.success "alpha", [.attempt]⟩
            else ⟨.missing, [.attempt]⟩)
          [2, 1]) =
      "<version_1>\nalpha\n</version_1>" :=
  ⟨by decide,
    by
      rw [aggregate_success_blocks
        (fun v => if v = 1 then ⟨.success "alpha", [.attempt]⟩
          else ⟨.missing, [.attempt]⟩) 2 [2, 1] (by decide)]
      decide⟩

/-- C2 counterexample: with one attempted index whose outcome is `Missing`,
the final results mapping of `fetch_reports` is empty — attempted index 1
does not appear as a key, and the mapping's cardinality is 0, not the number
of attempted indices (1). -/
theorem results_cardinality_counterexample :
    (get_weather_report (fun _ => Transport.ok none)).outcome =
      FetchOutcome.missing ∧
    fetch_reports (fun _ => get_weather_report (fun _ => Transport.ok none))
      [1] = [] := by
  decide

/-- C2 amended: every attempted index in `[1, N]` is resolved to exactly one
outcome — the set of resolved futures pairs each attempted index with its
single outcome and has cardinality N — but the final `results` mapping keeps
only the attempted indices whose outcome is a `Success` with non-empty
payload (the truthiness filter of line 92), so its key set is that subset,
regardless of completion order. -/
theorem results_cardinality_amended (f : Nat → FetchRun) (N : Nat)
    (order : List Nat) (h : order.Perm (List.range' 1 N)) :
    (fetchResultSet f (List.range' 1 N)).length = N ∧
    (∀ v o, (v, o) ∈ fetchResultSet f (List.range' 1 N) ↔
      (1 ≤ v ∧ v < 1 + N ∧ o = (f v).outcome)) ∧
    (∀ v, v ∈ (fetch_reports f order).map Prod.fst ↔
      (1 ≤ v ∧ v < 1 + N ∧ keptB f v = true)) := by
  refine ⟨by simp [fetchResultSet], fun v o => ?_, fun v => ?_⟩
  · simp only [fetchResultSet, List.mem_map]
    constructor
    · rintro ⟨w, hw, hwe⟩
      cases hwe
      obtain ⟨i, hi, hwi⟩ := List.mem_range'.mp hw
      refine ⟨by omega, by omega, rfl⟩
    · rintro ⟨h1, h2, rfl⟩
      exact ⟨v, List.mem_range'.mpr ⟨v - 1, by omega, by omega⟩, rfl⟩
  · rw [keys_fetch_reports]
    rw [List.mem_filter, h.mem_iff]
    constructor
    · rintro ⟨hmem, hk⟩
      obtain ⟨i, hi, hvi⟩ := List.mem_range'.mp hmem
      exact ⟨by omega, by omega, hk⟩
    · rintro ⟨h1, h2, hk⟩
      exact ⟨List.mem_range'.mpr ⟨v - 1, by omega, by omega⟩, hk⟩

theorem results_cardinality_witness :
    [2, 1].Perm (List.range' 1 2) ∧
    (fetchResultSet
        (fun v => if v = 1 then ⟨.success "a", [.attempt]⟩
          else ⟨.missing, [.attempt]⟩)
        (List.range' 1 2)).length = 2 ∧
    (1 ∈ (fetch_reports
        (fun v => if v = 1 then ⟨.success "a", [.attempt]⟩
          else ⟨.missing, [.attempt]⟩)
        [2, 1]).map Prod.fst ↔
      (1 ≤ 1 ∧ 1 < 1 + 2 ∧
        keptB
          (fun v => if v = 1 then ⟨.success "a", [.attempt]⟩
            else ⟨.missing, [.attempt]⟩)
          1 = true)) :=
  ⟨by decide,
    (results_cardinality_amended
      (fun v => if v = 1 then ⟨.success "a", [.attempt]⟩
        else ⟨.missing, [.attempt]⟩) 2 [2, 1] (by decide)).1,
    (results_cardinality_amended
      (fun v => if v = 1 then ⟨.success "a", [.attempt]⟩
        else ⟨.missing, [.attempt]⟩) 2 [2, 1] (by decide)).2.2 1⟩

/-- C7: for every run whose discovered total is non-negative, the versions
submitted by `main` are exactly one per distinct index of `[1, N]`: their
count equals N, no index is submitted twice, and an index is submitted iff
it lies in `[1, N]`. -/
theorem dispatch_exactly_range (disc : Transport (List Div))
    (h : 0 ≤ get_total_versions disc) :
    ((mainVersions disc).length : Int) = get_total_versions disc ∧
    (mainVersions disc).Nodup ∧
    (∀ i, i ∈ mainVersions disc ↔
      (1 ≤ i ∧ (i : Int) ≤ get_total_versions disc)) := by
  by_cases hN : get_total_versions disc = 0
  · refine ⟨by simp [mainVersions, hN], by simp [mainVersions, hN],
      fun i => ?_⟩
    have hnil : mainVersions disc = [] := by simp [mainVersions, hN]
    rw [hnil, hN]
    simp only [List.not_mem_nil, false_iff]
    rintro ⟨h1, h2⟩
    omega
  · have htn : ((get_total_versions disc).toNat : Int) =
        get_total_versions disc := Int.toNat_of_nonneg h
    refine ⟨?_, ?_, fun i => ?_⟩
    · simp [mainVersions, hN, htn]
    · simp only [mainVersions, hN, if_neg hN]
      exact List.nodup_range' 1 _
    · simp only [mainVersions, if_neg hN, List.mem_range']
      constructor
      · rintro ⟨j, hj, hij⟩
        constructor
        · omega
        · omega
      · rintro ⟨h1, h2⟩
        refine ⟨i - 1, ?_, by omega⟩
        omega

theorem dispatch_exactly_range_witness :
    0 ≤ get_total_versions (Transport.ok [Div.mk "Versions:" ["2"]]) ∧
    ((mainVersions (Transport.ok [Div.mk "Versions:" ["2"]])).length : Int) =
      get_total_versions (Transport.ok [Div.mk "Versions:" ["2"]]) ∧
    (mainVersions (Transport.ok [Div.mk "Versions:" ["2"]])).Nodup :=
  ⟨by decide,
    (dispatch_exactly_range (Transport.ok [Div.mk "Versions:" ["2"]])
      (by decide)).1,
    (dispatch_exactly_range (Transport.ok [Div.mk "Versions:" ["2"]])
      (by decide)).2.1⟩

/-- C10: an index whose fetch succeeds at the transport level and finds the
content block but whose payload trims to the empty string (`Success("")`)
never appears as a key of the results mapping, and replacing that outcome by
`Missing` changes neither the results mapping nor the aggregated artifact —
the truthiness filter of line 92 keeps only non-empty payloads, making the
empty-payload success indistinguishable from `Missing` or `Failed`. -/
theorem truthy_filter_exclusion (f : Nat → FetchRun) (order : List Nat)
    (v : Nat) (h : (f v).outcome = FetchOutcome.success "") :
    v ∉ (fetch_reports f order).map Prod.fst ∧
    fetch_reports f order =
      fetch_reports
        (fun w => if w = v then ⟨FetchOutcome.missing, (f w).trace⟩
          else f w) order ∧
    aggregate (fetch_reports f order) =
      aggregate
        (fetch_reports
          (fun w => if w = v then ⟨FetchOutcome.missing, (f w).trace⟩
            else f w) order) := by
  have hkept : keptB f v = false := by simp [keptB, h, retValue]
  have h2 : fetch_reports f order =
      fetch_reports
        (fun w => if w = v then ⟨FetchOutcome.missing, (f w).trace⟩
          else f w) order := by
    unfold fetch_reports
    apply List.filterMap_congr
    intro w _
    by_cases hwv : w = v
    · subst hwv
      simp [keptPair, retValue, h]
    · simp [keptPair, hwv]
  refine ⟨?_, h2, by rw [h2]⟩
  rw [keys_fetch_reports]
  intro hmem
  have hk := (List.mem_filter.mp hmem).2
  rw [hkept] at hk
  exact Bool.false_ne_true hk

theorem truthy_filter_exclusion_witness :
    (get_weather_report (fun _ => Transport.ok (some " \n "))).outcome =
      FetchOutcome.success "" ∧
    1 ∉ (fetch_reports
        (fun _ => get_weather_report (fun _ => Transport.ok (some " \n ")))
        [1]).map Prod.fst :=
  ⟨by decide,
    (truthy_filter_exclusion
      (fun _ => get_weather_report (fun _ => Transport.ok (some " \n ")))
      [1] 1 (by decide)).1⟩

end MaxWeather
